import Mathlib

set_option maxHeartbeats 1000000

namespace XBeeCellularModel

/-- Modelled from the spec: status codes returned by the api-frame layer
(`xbee_api_frames.h` is not part of the sources here; only the constant
`API_SEND_SUCCESS` and a handful of error codes are observable through the
cellular layer and the error taxonomy of the spec). -/
inductive ApiStatus where
  | success
  | errorUartFailure
  | errorTimeout
  | errorFraming
  | errorInvalidCommand
  deriving DecidableEq

/-- AT command codes used by `xbee_cellular.c` (`AT_AI`, `AT_PN`, `AT_AN`,
`AT_CP`, `AT_SD`). -/
inductive ATCmd where
  | AI
  | PN
  | AN
  | CP
  | SD
  deriving DecidableEq

/-- Modelled from the spec: a decoded API frame (`xbee_api_frame_t`), a type
byte plus a bounded payload; the cellular layer only passes it through to the
dispatcher, so the two fields suffice. -/
structure xbee_api_frame_t where
  ftype : Nat
  data : List Nat
  deriving DecidableEq

/-- Observable calls the cellular layer makes into its collaborators (the
api-frame layer and the transport port): a fire-and-forget AT command
(`apiSendAtCommand`), a blocking AT exchange with a timeout
(`apiSendAtCommandAndGetResponse`), a transport delay (`PortDelay`), a raw
frame send (`apiSendFrame`), one frame-decode attempt (`apiReceiveApiFrame`),
and a dispatch of a decoded frame (`apiHandleFrame`). -/
inductive Event where
  | atCmd (cmd : ATCmd) (param : String)
  | atCmdResp (cmd : ATCmd) (param : String) (timeoutMs : Nat)
  | delay (ms : Nat)
  | sendFrame (ftype : Nat) (payload : List Nat)
  | receiveFrame
  | handleFrame (frame : xbee_api_frame_t)
  deriving DecidableEq

/-- Cellular configuration record (`XBeeCellularConfig_t` in
`xbee_cellular.h`): three C strings, each possibly NULL (modelled by
`Option`). -/
structure XBeeCellularConfig_t where
  apn : Option String
  simPin : Option String
  carrier : Option String
  deriving DecidableEq

/-- Modelled from the spec: the base device handle (`XBee` from `xbee.h`,
not among the sources). The cellular code touches its vtable/ctable/htable
pointers (modelled as opaque numeric identifiers) and the frame-identifier
counter. -/
structure XBee where
  vtable : Nat
  ctable : Nat
  htable : Nat
  frameIdCntr : Nat
  deriving DecidableEq

/-- Cellular device instance (`XBeeCellular` in `xbee_cellular.h`): the base
handle plus the device-owned configuration copy. -/
structure XBeeCellular where
  base : XBee
  config : XBeeCellularConfig_t
  deriving DecidableEq

/-- Model of `XBeeCellularConnected` (xbee_cellular.c lines 66-71): one blocking
`AT_AI` exchange with NULL parameter and a 5000 ms timeout; returns
`status == API_SEND_SUCCESS && response == 0`. The argument `r` is the
environment-supplied result of the exchange: the status and the response
byte written into `response`. -/
def XBeeCellularConnected (r : ApiStatus × Nat) : Bool × List Event :=
  (if r.1 = ApiStatus.success ∧ r.2 = 0 then true else false,
   [Event.atCmdResp ATCmd.AI "" 5000])

/-- Model of `XBeeCellularDisconnect` (xbee_cellular.c lines 119-122): one
fire-and-forget `AT_SD` command with NULL parameter; returns
`status == API_SEND_SUCCESS`. `st` is the environment-supplied send
status. -/
def XBeeCellularDisconnect (st : ApiStatus) : Bool × List Event :=
  (if st = ApiStatus.success then true else false, [Event.atCmd ATCmd.SD ""])

/-- Model of `XBeeCellularSoftReset` (xbee_cellular.c lines 158-160): one
fire-and-forget `AT_SD` command with NULL parameter; returns whether the
send status equals `API_SEND_SUCCESS`. -/
def XBeeCellularSoftReset (st : ApiStatus) : Bool × List Event :=
  (if st = ApiStatus.success then true else false, [Event.atCmd ATCmd.SD ""])

/-- Model of `XBeeCellularProcess` (xbee_cellular.c lines 178-184): one
`apiReceiveApiFrame` decode attempt; if and only if it returns
`API_SEND_SUCCESS`, the decoded frame is dispatched via `apiHandleFrame`.
`recv` is the environment-supplied decode result: the status and the frame
the decode filled in. -/
def XBeeCellularProcess (recv : ApiStatus × xbee_api_frame_t) : List Event :=
  Event.receiveFrame ::
    (if recv.1 = ApiStatus.success then [Event.handleFrame recv.2] else [])

/-- Model of `XBeeCellularConfigure` (xbee_cellular.c lines 198-207): returns false
when `self` or `config` is NULL, otherwise stores the caller's configuration
record into the device's own copy and returns true. The second component is
the device state after the call. -/
def XBeeCellularConfigure (self : Option XBeeCellular)
    (config : Option XBeeCellularConfig_t) : Bool × Option XBeeCellular :=
  match self, config with
  | none, _ => (false, none)
  | some cell, none => (false, some cell)
  | some cell, some cfg => (true, some { cell with config := cfg })

/-- Opaque identifier standing for the address of the static
`XBeeCellularVTable` dispatch table. -/
def XBeeCellularVTableId : Nat := 1

/-- Outcome of `XBeeCellularCreate`: either a constructed instance, or a
write through a null pointer (undefined behavior in the C source). -/
inductive CreateResult where
  | ok (inst : XBeeCellular)
  | nullDeref
  deriving DecidableEq

/-- Model of `XBeeCellularCreate` (xbee_cellular.c lines 236-242): calls `malloc`
(result modelled by `allocResult`, with `none` for allocation failure and
`some mem` for a fresh block holding arbitrary bytes `mem`) and then,
without any null check, assigns `instance->base.vtable`,
`instance->base.ctable` and `instance->base.htable` through the returned
pointer. When `malloc` returns NULL those stores dereference a null
pointer, modelled by `CreateResult.nullDeref`. -/
def XBeeCellularCreate (allocResult : Option XBeeCellular)
    (cTable hTable : Nat) : CreateResult :=
  match allocResult with
  | none => CreateResult.nullDeref
  | some mem =>
      CreateResult.ok
        { mem with
          base := { mem.base with
                    vtable := XBeeCellularVTableId
                    ctable := cTable
                    htable := hTable } }

/-- One guarded configuration send in `XBeeCellularConnect`: the pattern
`if (field && strlen(field) > 0) apiSendAtCommand(self, cmd, field,
strlen(field))` that xbee_cellular.c repeats at lines 87-89, 91-93 and
95-97. -/
def optFieldCmd (c : ATCmd) (o : Option String) : List Event :=
  match o with
  | some s => if s.length > 0 then [Event.atCmd c s] else []
  | none => []

/-- Configuration-application phase of `XBeeCellularConnect`
(xbee_cellular.c lines 87-97): for each of `simPin`, `apn`, `carrier`, in
that order, if the field is non-NULL and `strlen > 0`, send it as one
fire-and-forget AT command (`AT_PN`, `AT_AN`, `AT_CP` respectively). -/
def connectConfigCmds (cfg : XBeeCellularConfig_t) : List Event :=
  optFieldCmd ATCmd.PN cfg.simPin ++ optFieldCmd ATCmd.AN cfg.apn ++
    optFieldCmd ATCmd.CP cfg.carrier

/-- Attach-poll loop of `XBeeCellularConnect` (xbee_cellular.c lines
99-105): `for (int i = 0; i < 20; ++i) { if (XBeeCellularConnected(self))
return true; PortDelay(1000); }` and `return false` when the loop ends.
`i` is the loop index, `fuel` the remaining iterations (`20 - i` at entry),
and `ai i` the environment-supplied result of the i-th AI exchange. -/
def connectLoop (ai : Nat → ApiStatus × Nat) (i fuel : Nat) :
    Bool × List Event :=
  match fuel with
  | 0 => (false, [])
  | Nat.succ fuel =>
      if (XBeeCellularConnected (ai i)).1 then
        (true, (XBeeCellularConnected (ai i)).2)
      else
        ((connectLoop ai (i + 1) fuel).1,
         (XBeeCellularConnected (ai i)).2 ++
           Event.delay 1000 :: (connectLoop ai (i + 1) fuel).2)

/-- Model of `XBeeCellularConnect` (xbee_cellular.c lines 83-109): apply the stored
configuration fields, then run the attach-poll loop with retry bound 20. -/
def XBeeCellularConnect (cfg : XBeeCellularConfig_t)
    (ai : Nat → ApiStatus × Nat) : Bool × List Event :=
  ((connectLoop ai 0 20).1, connectConfigCmds cfg ++ (connectLoop ai 0 20).2)

/-- One blocking AI attachment poll as it appears in the event trace. -/
def pollEv : Event := Event.atCmdResp ATCmd.AI "" 5000

/-- The 1000 ms inter-attempt delay as it appears in the event trace. -/
def delayEv : Event := Event.delay 1000

/-- Trace of n failed polling cycles: each cycle is one blocking AI poll
followed by the 1000 ms delay. -/
def pollCycleTrace : Nat → List Event
  | 0 => []
  | Nat.succ n => pollEv :: delayEv :: pollCycleTrace n

/-- Recognizer for fire-and-forget AT-command events. -/
def isAtCmdEvent : Event → Bool
  | Event.atCmd _ _ => true
  | _ => false

lemma connected_trace (r : ApiStatus × Nat) :
    (XBeeCellularConnected r).2 = [pollEv] := rfl

lemma connectLoop_all_fail (ai : Nat → ApiStatus × Nat) :
    ∀ fuel i,
      (∀ j, j < fuel → (XBeeCellularConnected (ai (i + j))).1 = false) →
      connectLoop ai i fuel = (false, pollCycleTrace fuel) := by
  intro fuel
  induction fuel with
  | zero => intro i _; rfl
  | succ n ih =>
    intro i h
    have h0 : (XBeeCellularConnected (ai i)).1 = false := by
      simpa using h 0 (Nat.succ_pos n)
    have hrest := ih (i + 1) (fun j hj => by
      have hx := h (j + 1) (Nat.succ_lt_succ hj)
      have e : i + (j + 1) = i + 1 + j := by omega
      rw [e] at hx
      exact hx)
    simp [connectLoop, h0, connected_trace, hrest, pollCycleTrace, pollEv,
      delayEv]

lemma connectLoop_first_success (ai : Nat → ApiStatus × Nat) :
    ∀ j i fuel, j < fuel →
      (∀ m, m < j → (XBeeCellularConnected (ai (i + m))).1 = false) →
      (XBeeCellularConnected (ai (i + j))).1 = true →
      connectLoop ai i fuel = (true, pollCycleTrace j ++ [pollEv]) := by
  intro j
  induction j with
  | zero =>
    intro i fuel hj _ hsucc
    cases fuel with
    | zero => omega
    | succ n =>
      have h0 : (XBeeCellularConnected (ai i)).1 = true := by
        simpa using hsucc
      simp [connectLoop, h0, connected_trace, pollCycleTrace]
  | succ j ih =>
    intro i fuel hj hfail hsucc
    cases fuel with
    | zero => omega
    | succ n =>
      have h0 : (XBeeCellularConnected (ai i)).1 = false := by
        simpa using hfail 0 (Nat.succ_pos j)
      have hrest := ih (i + 1) n (by omega)
        (fun m hm => by
          have hx := hfail (m + 1) (Nat.succ_lt_succ hm)
          have e : i + (m + 1) = i + 1 + m := by omega
          rw [e] at hx
          exact hx)
        (by
          have e : i + (j + 1) = i + 1 + j := by omega
          rw [e] at hsucc
          exact hsucc)
      simp [connectLoop, h0, connected_trace, hrest, pollCycleTrace, pollEv,
        delayEv]

lemma optFieldCmd_all_atCmd (c : ATCmd) (o : Option String) :
    ∀ e ∈ optFieldCmd c o, isAtCmdEvent e = true := by
  intro e he
  rcases o with _ | s
  · simp [optFieldCmd] at he
  · unfold optFieldCmd at he
    split at he <;> simp_all [isAtCmdEvent]

lemma configCmds_all_atCmd (cfg : XBeeCellularConfig_t) :
    ∀ e ∈ connectConfigCmds cfg, isAtCmdEvent e = true := by
  intro e he
  unfold connectConfigCmds at he
  rw [List.mem_append, List.mem_append] at he
  rcases he with (h | h) | h
  · exact optFieldCmd_all_atCmd ATCmd.PN cfg.simPin e h
  · exact optFieldCmd_all_atCmd ATCmd.AN cfg.apn e h
  · exact optFieldCmd_all_atCmd ATCmd.CP cfg.carrier e h

lemma pollEv_not_mem_configCmds (cfg : XBeeCellularConfig_t) :
    pollEv ∉ connectConfigCmds cfg := by
  intro h
  have := configCmds_all_atCmd cfg pollEv h
  simp [isAtCmdEvent, pollEv] at this

lemma delayEv_not_mem_configCmds (cfg : XBeeCellularConfig_t) :
    delayEv ∉ connectConfigCmds cfg := by
  intro h
  have := configCmds_all_atCmd cfg delayEv h
  simp [isAtCmdEvent, delayEv] at this

lemma count_pollCycleTrace_poll (n : Nat) :
    (pollCycleTrace n).count pollEv = n := by
  induction n with
  | zero => rfl
  | succ m ih =>
    have h1 : ¬delayEv = pollEv := by decide
    simp [pollCycleTrace, List.count_cons, h1, ih]

lemma count_pollCycleTrace_delay (n : Nat) :
    (pollCycleTrace n).count delayEv = n := by
  induction n with
  | zero => rfl
  | succ m ih =>
    have h1 : ¬pollEv = delayEv := by decide
    simp [pollCycleTrace, List.count_cons, h1, ih]

lemma connectLoop_no_atCmd (ai : Nat → ApiStatus × Nat) :
    ∀ fuel i, (connectLoop ai i fuel).2.filter isAtCmdEvent = [] := by
  intro fuel
  induction fuel with
  | zero => intro i; rfl
  | succ n ih =>
    intro i
    by_cases hc : (XBeeCellularConnected (ai i)).1 <;>
      simp [connectLoop, hc, connected_trace, ih, pollEv, isAtCmdEvent]

/-- C1: when every one of the 20 attachment-status polls reports failure,
`XBeeCellularConnect` returns false, its trace after the configuration
commands is exactly twenty cycles of one blocking AI poll (5000 ms timeout)
followed by the configured 1000 ms delay, and exactly 20 polls occur — no
21st poll is attempted. -/
theorem connect_all_fail_twenty_polls (cfg : XBeeCellularConfig_t)
    (ai : Nat → ApiStatus × Nat)
    (hfail : ∀ i, i < 20 → (XBeeCellularConnected (ai i)).1 = false) :
    (XBeeCellularConnect cfg ai).1 = false ∧
    (XBeeCellularConnect cfg ai).2 =
      connectConfigCmds cfg ++ pollCycleTrace 20 ∧
    (XBeeCellularConnect cfg ai).2.count pollEv = 20 := by
  have hloop := connectLoop_all_fail ai 20 0
    (fun j hj => by simpa using hfail j hj)
  unfold XBeeCellularConnect
  rw [hloop]
  refine ⟨rfl, rfl, ?_⟩
  rw [List.count_append,
    List.count_eq_zero_of_not_mem (pollEv_not_mem_configCmds cfg),
    count_pollCycleTrace_poll]

/-- C1 witness: an environment whose AI exchange always times out, with an
empty configuration, satisfies the hypothesis of
`connect_all_fail_twenty_polls`, and the conclusion evaluates on it. -/
theorem connect_all_fail_twenty_polls_witness :
    (∀ i, i < 20 →
      (XBeeCellularConnected
        ((fun _ => (ApiStatus.errorTimeout, 0)) i)).1 = false) ∧
    ((XBeeCellularConnect ⟨none, none, none⟩
        (fun _ => (ApiStatus.errorTimeout, 0))).1 = false ∧
     (XBeeCellularConnect ⟨none, none, none⟩
        (fun _ => (ApiStatus.errorTimeout, 0))).2 =
       connectConfigCmds ⟨none, none, none⟩ ++ pollCycleTrace 20 ∧
     (XBeeCellularConnect ⟨none, none, none⟩
        (fun _ => (ApiStatus.errorTimeout, 0))).2.count pollEv = 20) :=
  ⟨by decide, connect_all_fail_twenty_polls _ _ (by decide)⟩

/-- C2: when the k-th attachment-status poll (1 ≤ k ≤ 20) is the first to
report success, `XBeeCellularConnect` returns true immediately after it:
exactly k polls occur, exactly k-1 inter-attempt delays occur, and the
trace after the configuration commands is k-1 poll-delay cycles followed
by the final successful poll — no remaining retries are spent. -/
theorem connect_first_success_immediate (cfg : XBeeCellularConfig_t)
    (ai : Nat → ApiStatus × Nat) (k : Nat)
    (hk1 : 1 ≤ k) (hk20 : k ≤ 20)
    (hsucc : (XBeeCellularConnected (ai (k - 1))).1 = true)
    (hfail : ∀ i, i < k - 1 → (XBeeCellularConnected (ai i)).1 = false) :
    (XBeeCellularConnect cfg ai).1 = true ∧
    (XBeeCellularConnect cfg ai).2 =
      connectConfigCmds cfg ++ (pollCycleTrace (k - 1) ++ [pollEv]) ∧
    (XBeeCellularConnect cfg ai).2.count pollEv = k ∧
    (XBeeCellularConnect cfg ai).2.count delayEv = k - 1 := by
  have hloop := connectLoop_first_success ai (k - 1) 0 20 (by omega)
    (fun m hm => by simpa using hfail m hm)
    (by simpa using hsucc)
  unfold XBeeCellularConnect
  rw [hloop]
  refine ⟨rfl, rfl, ?_, ?_⟩
  · rw [List.count_append, List.count_append,
      List.count_eq_zero_of_not_mem (pollEv_not_mem_configCmds cfg),
      count_pollCycleTrace_poll]
    have h1 : List.count pollEv [pollEv] = 1 := by decide
    rw [h1]
    omega
  · rw [List.count_append, List.count_append,
      List.count_eq_zero_of_not_mem (delayEv_not_mem_configCmds cfg),
      count_pollCycleTrace_delay]
    have h1 : List.count delayEv [pollEv] = 0 := by decide
    rw [h1]
    omega

/-- C2 witness: an environment failing the first two polls and succeeding
on the third (k = 3), with an empty configuration, satisfies the
hypotheses of `connect_first_success_immediate`, and the conclusion
evaluates on it. -/
theorem connect_first_success_immediate_witness :
    (1 ≤ 3 ∧ 3 ≤ 20 ∧
     (XBeeCellularConnected
        ((fun i => if i = 2 then (ApiStatus.success, 0)
                   else (ApiStatus.errorTimeout, 1)) (3 - 1))).1 = true ∧
     (∀ i, i < 3 - 1 →
       (XBeeCellularConnected
          ((fun i => if i = 2 then (ApiStatus.success, 0)
                     else (ApiStatus.errorTimeout, 1)) i)).1 = false)) ∧
    ((XBeeCellularConnect ⟨none, none, none⟩
        (fun i => if i = 2 then (ApiStatus.success, 0)
                  else (ApiStatus.errorTimeout, 1))).1 = true ∧
     (XBeeCellularConnect ⟨none, none, none⟩
        (fun i => if i = 2 then (ApiStatus.success, 0)
                  else (ApiStatus.errorTimeout, 1))).2 =
       connectConfigCmds ⟨none, none, none⟩ ++
         (pollCycleTrace (3 - 1) ++ [pollEv]) ∧
     (XBeeCellularConnect ⟨none, none, none⟩
        (fun i => if i = 2 then (ApiStatus.success, 0)
                  else (ApiStatus.errorTimeout, 1))).2.count pollEv = 3 ∧
     (XBeeCellularConnect ⟨none, none, none⟩
        (fun i => if i = 2 then (ApiStatus.success, 0)
                  else (ApiStatus.errorTimeout, 1))).2.count delayEv
       = 3 - 1) :=
  ⟨⟨by decide, by decide, by decide, by decide⟩,
   connect_first_success_immediate _ _ 3 (by decide) (by decide)
     (by decide) (by decide)⟩

/-- C3: on every call to `XBeeCellularConnect`, the fire-and-forget AT
commands it issues are exactly: one `AT_PN` carrying the SIM PIN when that
field is non-NULL and non-empty, then one `AT_AN` carrying the APN under
the same condition, then one `AT_CP` carrying the carrier profile; a NULL
or empty field contributes no command, and the SIM-unlock command precedes
the APN and carrier commands. -/
theorem connect_applies_nonempty_config_fields (cfg : XBeeCellularConfig_t)
    (ai : Nat → ApiStatus × Nat) :
    ((XBeeCellularConnect cfg ai).2.filter isAtCmdEvent) =
      optFieldCmd ATCmd.PN cfg.simPin ++ optFieldCmd ATCmd.AN cfg.apn ++
        optFieldCmd ATCmd.CP cfg.carrier := by
  unfold XBeeCellularConnect
  rw [List.filter_append, connectLoop_no_atCmd, List.append_nil,
    List.filter_eq_self.mpr (configCmds_all_atCmd cfg)]
  rfl

/-- C4: every call to `XBeeCellularProcess` performs exactly one frame
decode; a frame is dispatched to the handler if and only if that single
decode returned `API_SEND_SUCCESS`, the dispatched frame is exactly the
decoded one, and on failure no handler runs and the decode is not retried
within the call. -/
theorem process_one_decode_dispatch_iff_success
    (st : ApiStatus) (f : xbee_api_frame_t) :
    (XBeeCellularProcess (st, f)).count Event.receiveFrame = 1 ∧
    ((Event.handleFrame f ∈ XBeeCellularProcess (st, f)) ↔
      st = ApiStatus.success) ∧
    (∀ g, Event.handleFrame g ∈ XBeeCellularProcess (st, f) →
      st = ApiStatus.success ∧ g = f) := by
  by_cases h : st = ApiStatus.success <;>
    simp [XBeeCellularProcess, h, List.count_cons]

/-- C4 witness: the conclusion of
`process_one_decode_dispatch_iff_success` evaluates at a concrete failed
decode and at a concrete successful decode. -/
theorem process_one_decode_dispatch_iff_success_witness :
    ((XBeeCellularProcess (ApiStatus.errorTimeout,
        xbee_api_frame_t.mk 0x88 [1, 2])).count Event.receiveFrame = 1 ∧
     ((Event.handleFrame (xbee_api_frame_t.mk 0x88 [1, 2]) ∈
        XBeeCellularProcess (ApiStatus.errorTimeout,
          xbee_api_frame_t.mk 0x88 [1, 2])) ↔
       ApiStatus.errorTimeout = ApiStatus.success) ∧
     (∀ g, Event.handleFrame g ∈ XBeeCellularProcess
          (ApiStatus.errorTimeout, xbee_api_frame_t.mk 0x88 [1, 2]) →
        ApiStatus.errorTimeout = ApiStatus.success ∧
          g = xbee_api_frame_t.mk 0x88 [1, 2])) ∧
    ((XBeeCellularProcess (ApiStatus.success,
        xbee_api_frame_t.mk 0x88 [1, 2])).count Event.receiveFrame = 1 ∧
     ((Event.handleFrame (xbee_api_frame_t.mk 0x88 [1, 2]) ∈
        XBeeCellularProcess (ApiStatus.success,
          xbee_api_frame_t.mk 0x88 [1, 2])) ↔
       ApiStatus.success = ApiStatus.success) ∧
     (∀ g, Event.handleFrame g ∈ XBeeCellularProcess
          (ApiStatus.success, xbee_api_frame_t.mk 0x88 [1, 2]) →
        ApiStatus.success = ApiStatus.success ∧
          g = xbee_api_frame_t.mk 0x88 [1, 2])) :=
  ⟨process_one_decode_dispatch_iff_success ApiStatus.errorTimeout
     (xbee_api_frame_t.mk 0x88 [1, 2]),
   process_one_decode_dispatch_iff_success ApiStatus.success
     (xbee_api_frame_t.mk 0x88 [1, 2])⟩

/-- C5: `XBeeCellularConfigure` returns false and changes nothing when
either pointer is NULL; otherwise it stores the caller's record verbatim
into the device's configuration copy (for every record, without inspecting
any field), returns true, and leaves every other field of the handle
unchanged. -/
theorem configure_null_guard_and_verbatim_store
    (cell : XBeeCellular) (cfg : XBeeCellularConfig_t)
    (cfgOpt : Option XBeeCellularConfig_t) :
    XBeeCellularConfigure none cfgOpt = (false, none) ∧
    XBeeCellularConfigure (some cell) none = (false, some cell) ∧
    XBeeCellularConfigure (some cell) (some cfg) =
      (true, some { base := cell.base, config := cfg }) := by
  refine ⟨?_, rfl, rfl⟩
  cases cfgOpt <;> rfl

/-- C6: the connected check performs exactly one blocking `AT_AI` exchange
with a 5000 ms timeout and returns true if and only if the exchange status
is `API_SEND_SUCCESS` and the response byte is zero; every failure outcome
yields false. -/
theorem connected_single_ai_exchange (st : ApiStatus) (resp : Nat) :
    ((XBeeCellularConnected (st, resp)).1 = true ↔
      (st = ApiStatus.success ∧ resp = 0)) ∧
    (XBeeCellularConnected (st, resp)).2 =
      [Event.atCmdResp ATCmd.AI "" 5000] := by
  constructor
  · simp only [XBeeCellularConnected]
    split
    · simp_all
    · simp_all
  · rfl

/-- C6 witness: the conclusion of `connected_single_ai_exchange` evaluates
at a concrete successful exchange with response byte zero. -/
theorem connected_single_ai_exchange_witness :
    ((XBeeCellularConnected (ApiStatus.success, 0)).1 = true ↔
      (ApiStatus.success = ApiStatus.success ∧ (0 : Nat) = 0)) ∧
    (XBeeCellularConnected (ApiStatus.success, 0)).2 =
      [Event.atCmdResp ATCmd.AI "" 5000] :=
  connected_single_ai_exchange ApiStatus.success 0

/-- C7: when `malloc` returns NULL, `XBeeCellularCreate` does not surface
the failure to the caller; it proceeds to initialize fields through the
unallocated handle, dereferencing the null pointer. -/
theorem create_null_alloc_derefs :
    XBeeCellularCreate none 0 0 = CreateResult.nullDeref := rfl

/-- C10: `XBeeCellularSoftReset` and `XBeeCellularDisconnect` are
extensionally equal: for every send status both emit the same single
fire-and-forget `AT_SD` command with no parameter, and both return true
exactly when the send status is `API_SEND_SUCCESS`. -/
theorem softReset_disconnect_extensional_eq (st : ApiStatus) :
    XBeeCellularDisconnect st = XBeeCellularSoftReset st ∧
    ((XBeeCellularDisconnect st).1 = true ↔ st = ApiStatus.success) ∧
    (XBeeCellularDisconnect st).2 = [Event.atCmd ATCmd.SD ""] := by
  refine ⟨rfl, ?_, rfl⟩
  simp only [XBeeCellularDisconnect]
  split
  · simpa
  · simpa

/-- C10 witness: the conclusion of `softReset_disconnect_extensional_eq`
evaluates at send status `API_SEND_SUCCESS`. -/
theorem softReset_disconnect_extensional_eq_witness :
    XBeeCellularDisconnect ApiStatus.success =
      XBeeCellularSoftReset ApiStatus.success ∧
    ((XBeeCellularDisconnect ApiStatus.success).1 = true ↔
      ApiStatus.success = ApiStatus.success) ∧
    (XBeeCellularDisconnect ApiStatus.success).2 =
      [Event.atCmd ATCmd.SD ""] :=
  softReset_disconnect_extensional_eq ApiStatus.success

/-- Model of `XBeeCellularPacket_t` (xbee_cellular.h lines 47-53): protocol byte,
16-bit destination port, 4-byte IPv4 address, payload pointer and its
declared size (a `uint8_t`). `payload` models the bytes the `memcpy` reads
from the payload pointer. -/
structure XBeeCellularPacket_t where
  protocol : Nat
  port : Nat
  ip : List Nat
  payload : List Nat
  payloadSize : Nat

/-- Byte-buffer semantics: apply a list of (index, value) stores to a
buffer, later stores overriding earlier ones. -/
def applyWrites (ws : List (Nat × Nat)) (buf : Nat → Nat) : Nat → Nat :=
  ws.foldl (fun b w => fun idx => if idx = w.1 then w.2 else b idx) buf

/-- The sequence of (index, byte) stores `XBeeCellularSendData` performs
on its local `uint8_t frame[128]` (xbee_cellular.c lines 139-144): four
header stores at offsets 0-3 (frame id, protocol byte, port high byte,
port low byte, each truncated to a byte as by a `uint8_t` store), the
4-byte `memcpy` of the IP address at offsets 4-7, then the `memcpy` of
`payloadSize` payload bytes starting at offset 8 — with no bounds check
against the 128-byte capacity. -/
def sendDataWrites (frameId : Nat) (packet : XBeeCellularPacket_t) :
    List (Nat × Nat) :=
  [(0, frameId % 256), (1, packet.protocol % 256),
   (2, packet.port / 256 % 256), (3, packet.port % 256)]
  ++ (List.range 4).map (fun j => (4 + j, packet.ip.getD j 0))
  ++ (List.range packet.payloadSize).map
       (fun j => (8 + j, packet.payload.getD j 0))

/-- Frame-type byte for a cellular IPv4 transmit request
(`XBEE_API_TYPE_CELLULAR_TX_IPV4`). -/
def XBEE_API_TYPE_CELLULAR_TX_IPV4 : Nat := 0x20

/-- Model of `XBeeCellularSendData` (xbee_cellular.c lines 133-148): fill the local
frame buffer (initial contents `buf0`, uninitialized in C) with the header
and payload stores, then hand `apiSendFrame` the first `offset` bytes
(`offset` is a `uint8_t` that has reached `(8 + payloadSize) % 256`) as one
`XBEE_API_TYPE_CELLULAR_TX_IPV4` frame; return 0x00 when the send status
is `API_SEND_SUCCESS` and 0xFF otherwise. -/
def XBeeCellularSendData (frameIdCntr : Nat) (buf0 : Nat → Nat)
    (data : XBeeCellularPacket_t) (sendStatus : ApiStatus) :
    Nat × List Event :=
  ((if sendStatus = ApiStatus.success then 0x00 else 0xFF),
   [Event.sendFrame XBEE_API_TYPE_CELLULAR_TX_IPV4
     ((List.range ((8 + data.payloadSize) % 256)).map
       (applyWrites (sendDataWrites frameIdCntr data) buf0))])

lemma applyWrites_append (ws1 ws2 : List (Nat × Nat)) (buf : Nat → Nat) :
    applyWrites (ws1 ++ ws2) buf = applyWrites ws2 (applyWrites ws1 buf) := by
  simp [applyWrites, List.foldl_append]

lemma applyWrites_region (vals : Nat → Nat) (a : Nat) :
    ∀ len (buf : Nat → Nat) (i : Nat),
      applyWrites ((List.range len).map (fun j => (a + j, vals j))) buf i =
        if a ≤ i ∧ i < a + len then vals (i - a) else buf i := by
  intro len
  induction len with
  | zero =>
    intro buf i
    rw [if_neg (by omega)]
    rfl
  | succ n ih =>
    intro buf i
    rw [List.range_succ, List.map_append, applyWrites_append]
    simp only [List.map_cons, List.map_nil]
    have hsingle : applyWrites [(a + n, vals n)]
        (applyWrites ((List.range n).map (fun j => (a + j, vals j))) buf) i =
        if i = a + n then vals n
        else applyWrites ((List.range n).map (fun j => (a + j, vals j)))
          buf i := rfl
    rw [hsingle, ih buf i]
    by_cases h1 : i = a + n
    · rw [if_pos h1, if_pos (by omega)]
      have e : i - a = n := by omega
      rw [e]
    · rw [if_neg h1]
      by_cases h2 : a ≤ i ∧ i < a + n
      · rw [if_pos h2, if_pos (by omega)]
      · rw [if_neg h2, if_neg (by omega)]

lemma header_writes_as_region (b0 b1 b2 b3 : Nat) :
    [(0, b0), (1, b1), (2, b2), (3, b3)] =
      (List.range 4).map (fun j => (0 + j, [b0, b1, b2, b3].getD j 0)) := rfl

lemma map_getD_range (l : List Nat) :
    (List.range l.length).map (fun i => l.getD i 0) = l := by
  induction l with
  | nil => rfl
  | cons x t ih =>
    rw [List.length_cons, List.range_succ_eq_map, List.map_cons,
      List.map_map]
    have hhead : (x :: t).getD 0 0 = x := rfl
    have hc : ∀ a ∈ List.range t.length,
        ((fun i => (x :: t).getD i 0) ∘ Nat.succ) a =
          (fun i => t.getD i 0) a := by
      intro a _
      simp
    rw [hhead, List.map_congr_left hc, ih]

lemma list_len4_eta (l : List Nat) (h : l.length = 4) :
    [l.getD 0 0, l.getD 1 0, l.getD 2 0, l.getD 3 0] = l := by
  conv_rhs => rw [← map_getD_range l]
  rw [h]
  rfl

lemma sendData_buffer_read (fid : Nat) (buf0 : Nat → Nat)
    (p : XBeeCellularPacket_t) (i : Nat) :
    applyWrites (sendDataWrites fid p) buf0 i =
      if 8 ≤ i ∧ i < 8 + p.payloadSize then p.payload.getD (i - 8) 0
      else if 4 ≤ i ∧ i < 4 + 4 then p.ip.getD (i - 4) 0
      else if 0 ≤ i ∧ i < 0 + 4 then
        [fid % 256, p.protocol % 256, p.port / 256 % 256,
          p.port % 256].getD (i - 0) 0
      else buf0 i := by
  unfold sendDataWrites
  rw [header_writes_as_region, applyWrites_append, applyWrites_append,
    applyWrites_region, applyWrites_region, applyWrites_region]

/-- C8: for every packet with `payloadSize ≤ 120` (and fields within their
C types' ranges), `XBeeCellularSendData` hands the transport exactly one
`XBEE_API_TYPE_CELLULAR_TX_IPV4` frame whose payload is the frame-id byte,
the protocol byte, the port in big-endian, the four IP bytes, then the
payload verbatim — independent of the uninitialized buffer contents — and
the frame payload has length `8 + payloadSize`; the call returns 0x00 on
send success and 0xFF otherwise. -/
theorem sendData_frame_layout (fid : Nat) (buf0 : Nat → Nat)
    (p : XBeeCellularPacket_t) (st : ApiStatus)
    (hfid : fid < 256) (hproto : p.protocol < 256) (hport : p.port < 65536)
    (hip : p.ip.length = 4) (hlen : p.payload.length = p.payloadSize)
    (hps : p.payloadSize ≤ 120) :
    XBeeCellularSendData fid buf0 p st =
      ((if st = ApiStatus.success then 0x00 else 0xFF),
       [Event.sendFrame XBEE_API_TYPE_CELLULAR_TX_IPV4
         ([fid, p.protocol, p.port / 256, p.port % 256] ++ p.ip ++
           p.payload)]) ∧
    ([fid, p.protocol, p.port / 256, p.port % 256] ++ p.ip ++
       p.payload).length = 8 + p.payloadSize := by
  have hmod : (8 + p.payloadSize) % 256 = 8 + p.payloadSize :=
    Nat.mod_eq_of_lt (by omega)
  have e1 : fid % 256 = fid := Nat.mod_eq_of_lt hfid
  have e2 : p.protocol % 256 = p.protocol := Nat.mod_eq_of_lt hproto
  have e3 : p.port / 256 % 256 = p.port / 256 := by
    apply Nat.mod_eq_of_lt
    omega
  have key : (List.range ((8 + p.payloadSize) % 256)).map
      (applyWrites (sendDataWrites fid p) buf0) =
      [fid, p.protocol, p.port / 256, p.port % 256] ++ p.ip ++
        p.payload := by
    rw [hmod, List.range_add, List.map_append, List.map_map]
    have hA : (List.range 8).map
        (applyWrites (sendDataWrites fid p) buf0) =
        [fid, p.protocol, p.port / 256, p.port % 256] ++
          [p.ip.getD 0 0, p.ip.getD 1 0, p.ip.getD 2 0, p.ip.getD 3 0] := by
      have e : List.range 8 = [0, 1, 2, 3, 4, 5, 6, 7] := rfl
      rw [e]
      simp [sendData_buffer_read, e1, e2, e3]
    have hB : (List.range p.payloadSize).map
        (applyWrites (sendDataWrites fid p) buf0 ∘ fun x => 8 + x) =
        p.payload := by
      have : (List.range p.payloadSize).map
          (applyWrites (sendDataWrites fid p) buf0 ∘ fun x => 8 + x) =
          (List.range p.payloadSize).map (fun j => p.payload.getD j 0) := by
        apply List.map_congr_left
        intro j hj
        rw [List.mem_range] at hj
        simp only [Function.comp_apply, sendData_buffer_read]
        rw [if_pos (by omega)]
        have e : 8 + j - 8 = j := by omega
        rw [e]
      rw [this, ← hlen, map_getD_range]
    rw [hA, hB, list_len4_eta p.ip hip]
  refine ⟨?_, ?_⟩
  · unfold XBeeCellularSendData
    rw [key]
  · simp only [List.length_append, List.length_cons, List.length_nil, hip,
      hlen]

/-- C8 witness: a concrete 3-byte packet satisfies the hypotheses of
`sendData_frame_layout` and the conclusion evaluates on it. -/
theorem sendData_frame_layout_witness :
    ((1 : Nat) < 256 ∧
     (XBeeCellularPacket_t.mk 1 0x1234 [192, 168, 1, 2] [9, 8, 7]
        3).protocol < 256 ∧
     (XBeeCellularPacket_t.mk 1 0x1234 [192, 168, 1, 2] [9, 8, 7]
        3).port < 65536 ∧
     (XBeeCellularPacket_t.mk 1 0x1234 [192, 168, 1, 2] [9, 8, 7]
        3).ip.length = 4 ∧
     (XBeeCellularPacket_t.mk 1 0x1234 [192, 168, 1, 2] [9, 8, 7]
        3).payload.length =
       (XBeeCellularPacket_t.mk 1 0x1234 [192, 168, 1, 2] [9, 8, 7]
          3).payloadSize ∧
     (XBeeCellularPacket_t.mk 1 0x1234 [192, 168, 1, 2] [9, 8, 7]
        3).payloadSize ≤ 120) ∧
    XBeeCellularSendData 1 (fun _ => 0)
        (XBeeCellularPacket_t.mk 1 0x1234 [192, 168, 1, 2] [9, 8, 7] 3)
        ApiStatus.success =
      ((if ApiStatus.success = ApiStatus.success then 0x00 else 0xFF),
       [Event.sendFrame XBEE_API_TYPE_CELLULAR_TX_IPV4
         ([1, 1, 0x1234 / 256, 0x1234 % 256] ++ [192, 168, 1, 2] ++
           [9, 8, 7])]) ∧
    ([(1 : Nat), 1, 0x1234 / 256, 0x1234 % 256] ++ [192, 168, 1, 2] ++
       [9, 8, 7]).length = 8 + 3 :=
  ⟨⟨by decide, by decide, by decide, by decide, by decide, by decide⟩,
   (sendData_frame_layout 1 (fun _ => 0)
     (XBeeCellularPacket_t.mk 1 0x1234 [192, 168, 1, 2] [9, 8, 7] 3)
     ApiStatus.success (by decide) (by decide) (by decide) (by decide)
     (by decide) (by decide)).1,
   (sendData_frame_layout 1 (fun _ => 0)
     (XBeeCellularPacket_t.mk 1 0x1234 [192, 168, 1, 2] [9, 8, 7] 3)
     ApiStatus.success (by decide) (by decide) (by decide) (by decide)
     (by decide) (by decide)).2⟩

/-- C9: the stores `XBeeCellularSendData` performs on its 128-byte local
frame buffer all target indices below 128 if and only if the packet's
`payloadSize` is at most 120; the code performs no such check, so
`payloadSize ≤ 120` is an unchecked precondition for every store to stay
within the buffer. -/
theorem sendData_writes_in_bounds_iff (fid : Nat)
    (p : XBeeCellularPacket_t) (hps : p.payloadSize ≤ 255) :
    (∀ w ∈ sendDataWrites fid p, w.1 < 128) ↔ p.payloadSize ≤ 120 := by
  constructor
  · intro h
    by_contra hgt
    push_neg at hgt
    have hmem : (8 + (p.payloadSize - 1),
        p.payload.getD (p.payloadSize - 1) 0) ∈ sendDataWrites fid p := by
      unfold sendDataWrites
      rw [List.mem_append]
      right
      exact List.mem_map_of_mem _ (List.mem_range.mpr (by omega))
    have hlt := h _ hmem
    simp only at hlt
    omega
  · intro h w hw
    unfold sendDataWrites at hw
    rw [List.mem_append, List.mem_append] at hw
    rcases hw with (h1 | h2) | h3
    · simp only [List.mem_cons, List.not_mem_nil, or_false] at h1
      rcases h1 with rfl | rfl | rfl | rfl <;> norm_num
    · rw [List.mem_map] at h2
      obtain ⟨j, hj, rfl⟩ := h2
      rw [List.mem_range] at hj
      simp only
      omega
    · rw [List.mem_map] at h3
      obtain ⟨j, hj, rfl⟩ := h3
      rw [List.mem_range] at hj
      simp only
      omega

/-- C9 witness: a concrete packet with payloadSize 3 satisfies the
hypothesis of `sendData_writes_in_bounds_iff` and the equivalence
evaluates on it. -/
theorem sendData_writes_in_bounds_iff_witness :
    (XBeeCellularPacket_t.mk 1 80 [10, 0, 0, 1] [5, 6, 7] 3).payloadSize
        ≤ 255 ∧
    ((∀ w ∈ sendDataWrites 1
        (XBeeCellularPacket_t.mk 1 80 [10, 0, 0, 1] [5, 6, 7] 3),
        w.1 < 128) ↔
      (XBeeCellularPacket_t.mk 1 80 [10, 0, 0, 1] [5, 6, 7]
        3).payloadSize ≤ 120) :=
  ⟨by decide, sendData_writes_in_bounds_iff 1 _ (by decide)⟩

end XBeeCellularModel
